import Mathlib

/-!
# Verification of the google-sheets-server core logic

Shallow embedding of the school-data server (`src/server.js`, snapshot
variant at lines 413-917, plus the TTL-cache variants in `src/unnamed/`).
Spreadsheet cell values are modelled by `Cell` (string or numeric scalars,
as delivered by the sheets API); JavaScript objects and `Map`s are modelled
as insertion-ordered association lists with JS update-in-place semantics;
fallible upstream calls are modelled with `Except`.
-/

namespace SheetsServer

/-- Decimal digits of a natural number, most significant first; `fuel`
bounds the recursion (`fuel > n` suffices). -/
def natDigitsAux : Nat → Nat → List Char
  | 0, _ => []
  | fuel + 1, n =>
    if n < 10 then [Char.ofNat (48 + n)]
    else natDigitsAux fuel (n / 10) ++ [Char.ofNat (48 + n % 10)]

/-- Decimal rendering of a natural number. -/
def natToString (n : Nat) : String :=
  ⟨natDigitsAux (n + 1) n⟩

/-- JS `String(n)` for an integer: decimal rendering with a leading `-`
for negatives. -/
def intToString : Int → String
  | .ofNat n => natToString n
  | .negSucc m => ⟨'-' :: (natToString (m + 1)).data⟩

/-- JS `s.trim()`: strip whitespace from both ends (modelled on the
character list; the headers in play are ASCII). -/
def jsTrim (s : String) : String :=
  ⟨((s.data.dropWhile Char.isWhitespace).reverse.dropWhile Char.isWhitespace).reverse⟩

/-- JS `s.toLowerCase()` (ASCII case folding, which covers the labels in
play). -/
def jsToLower (s : String) : String :=
  ⟨s.data.map Char.toLower⟩

/-- A spreadsheet cell value: an untyped scalar (string or number), as
returned by the upstream `values.get` call. -/
inductive Cell where
  | str (s : String)
  | num (n : Int)
deriving DecidableEq, Repr

/-- JS `String(c)`: the string conversion of a cell value. -/
def Cell.toJSString : Cell → String
  | .str s => s
  | .num n => intToString n

/-- JS truthiness of a cell value: `""` and `0` are falsy. -/
def Cell.truthy : Cell → Bool
  | .str s => s ≠ ""
  | .num n => n ≠ 0

/-- `matchesAt pat l`: the char list `pat` occurs at the head of `l`. -/
def matchesAt : List Char → List Char → Bool
  | [], _ => true
  | _ :: _, [] => false
  | p :: ps, c :: cs => if p = c then matchesAt ps cs else false

/-- `listFindSub pat l`: the char list `pat` occurs somewhere inside `l`. -/
def listFindSub (pat : List Char) : List Char → Bool
  | [] => pat.isEmpty
  | c :: cs => matchesAt pat (c :: cs) || listFindSub pat cs

/-- JS `s.includes(pat)`: substring containment test. -/
def strContains (s pat : String) : Bool :=
  listFindSub pat.toList s.toList

/-- JS object / `Map` lookup: first (unique) entry with the given key. -/
def jsGet : List (String × α) → String → Option α
  | [], _ => none
  | e :: t, k => if e.1 = k then some e.2 else jsGet t k

/-- JS object / `Map` key-presence test. -/
def jsHas : List (String × α) → String → Bool
  | [], _ => false
  | e :: t, k => if e.1 = k then true else jsHas t k

/-- JS object property write / `Map.set`: updating an existing key keeps
its original insertion position; a new key is appended. -/
def jsSet (m : List (String × α)) (k : String) (v : α) : List (String × α) :=
  if jsHas m k then m.map (fun e => if e.1 = k then (k, v) else e)
  else m ++ [(k, v)]

/-- The keys of a JS object / `Map`, in insertion order. -/
def jsKeys (m : List (String × α)) : List String :=
  m.map (·.1)

/-- A `Record`: one materialized data row, a label-to-cell mapping with JS
object semantics. -/
def Record := List (String × Cell)
deriving DecidableEq, Repr

/-- A `KeyedIndex`: stringified join-key to `Record`, with JS `Map`
semantics. -/
def KeyedMap := List (String × Record)
deriving DecidableEq, Repr

/-- `isSchoolIdHeader` from server.js:478-481: the fuzzy key-column
predicate on a header cell (`String(h || "").trim().toLowerCase()` equals
"school id" or "schoolid", or contains both "school" and "id"). -/
def isSchoolIdHeader (h : Cell) : Bool :=
  let s := jsToLower (jsTrim (if h.truthy then h.toJSString else ""))
  s == "school id" || s == "schoolid" || (strContains s "school" && strContains s "id")

/-- Scanning loop of `findSchoolIdIndex`, carrying the current index. -/
def findSchoolIdAux : List Cell → Nat → Int
  | [], _ => -1
  | h :: t, i => if isSchoolIdHeader h then Int.ofNat i else findSchoolIdAux t (i + 1)

/-- `findSchoolIdIndex` from server.js:482-485: index of the first header
satisfying `isSchoolIdHeader`, or `-1`. -/
def findSchoolIdIndex (headers : List Cell) : Int :=
  findSchoolIdAux headers 0

/-- Body of the row loop of `rowsToObjects` (server.js:486-495): zip one
raw row with the header labels (`headerRow[i] || col_<i>` as key,
`r[i] ?? ""` as value). -/
def rowToObject (headerRow : List Cell) (r : List Cell) : Record :=
  (List.range headerRow.length).foldl (fun obj i =>
    let h := headerRow.getD i (Cell.str "")
    let key := if h.truthy then h.toJSString else "col_" ++ natToString i
    jsSet obj key (r.getD i (Cell.str ""))) []

/-- `rowsToObjects` from server.js:486-495. -/
def rowsToObjects (rows : List (List Cell)) (headerRow : List Cell) : List Record :=
  rows.map (rowToObject headerRow)

/-- `buildPerfFlatHeaders` from server.js:496-507: flatten the three
header rows; at each position join the cells as
`"<cat> | <field> | <year>"`, trim, and fall back to `col_<i>` only when
the trimmed label is empty. -/
def buildPerfFlatHeaders (h1 h2 h3 : List Cell) : List String :=
  let width := max (max h1.length h2.length) h3.length
  (List.range width).map (fun i =>
    let cat := h1.getD i (Cell.str "")
    let f := h2.getD i (Cell.str "")
    let year := h3.getD i (Cell.str "")
    let label := jsTrim (cat.toJSString ++ " | " ++ f.toJSString ++ " | " ++ year.toJSString)
    if label.length = 0 then "col_" ++ natToString i else label)

/-- Loop body of `toKeyedBySchoolId` (server.js:513-516): skip a record
whose value at the key field is undefined or `""`, otherwise
`map.set(String(id), r)`. -/
def keyedStep (keyName : String) (m : KeyedMap) (r : Record) : KeyedMap :=
  match jsGet r keyName with
  | none => m
  | some v => if v = Cell.str "" then m else jsSet m v.toJSString r

/-- `toKeyedBySchoolId` from server.js:508-518: locate the key column; if
absent return the empty index; otherwise insert every record whose value
at the key field is neither undefined nor `""` under its stringified key
(last write wins via `Map.set`). -/
def toKeyedBySchoolId (objs : List Record) (headerRow : List Cell) : KeyedMap :=
  let idx := findSchoolIdIndex headerRow
  if idx < 0 then []
  else
    let keyName := (headerRow.getD idx.toNat (Cell.str "")).toJSString
    objs.foldl (keyedStep keyName) []

/-- The records that insert key `k` into the index built with key field
`keyName`: value at the key field defined, not `""`, and stringifying to
`k`. -/
def insertsKey (keyName k : String) (r : Record) : Bool :=
  match jsGet r keyName with
  | none => false
  | some v => if v = Cell.str "" then false else decide (v.toJSString = k)

/-- JS `row["School ID"]` truthiness test (`if (!row["School ID"])` guard
in the join loops). -/
def schoolIdTruthy (row : Record) : Bool :=
  match jsGet row "School ID" with
  | some v => v.truthy
  | none => false

/-- `p[schoolIdHeader]` guarded lookup used by the join loops: the
record's value at the detected key-field name, `none` when no key header
was detected, the header cell is falsy, or the record lacks the field
(`schoolIdHeader && p[schoolIdHeader] != null`). -/
def lookupVia (sih : Option Cell) (r : Record) : Option Cell :=
  match sih with
  | none => none
  | some h => if h.truthy then jsGet r h.toJSString else none

/-- The shallow merge `{...p, ...q}` of two records: start from `p` and
write every entry of `q` over it (right wins on collision). -/
def mergeRow (p q : Record) : Record :=
  q.foldl (fun acc e => jsSet acc e.1 e.2) p

/-- The "ensure a consistent School ID field" block of the join loops
(server.js:663-667): if the merged row's `"School ID"` is falsy/missing,
fill it from the left record's key field, else the right record's key
field, else the join key string itself. -/
def ensureSchoolId (sihP sihQ : Option Cell) (p q row : Record) (id : String) : Record :=
  if schoolIdTruthy row then row
  else
    match lookupVia sihP p with
    | some v => jsSet row "School ID" v
    | none =>
      match lookupVia sihQ q with
      | some v => jsSet row "School ID" v
      | none => jsSet row "School ID" (Cell.str id)

/-- Body of the per-id join loop (server.js:659-668): fetch both sides
(`|| {}` for a missing side), merge, and ensure the `"School ID"` field. -/
def joinRowFor (pMap qMap : KeyedMap) (sihP sihQ : Option Cell) (id : String) : Record :=
  let p := (jsGet pMap id).getD []
  let q := (jsGet qMap id).getD []
  ensureSchoolId sihP sihQ p q (mergeRow p q) id

/-- Inner-join id list (server.js:657): left keys filtered to membership
in the right index. -/
def joinIdsInner (pMap qMap : KeyedMap) : List String :=
  (jsKeys pMap).filter (fun id => jsHas qMap id)

/-- One step of JS `Set` construction: add a key unless already seen. -/
def addUnique (acc : List String) (k : String) : List String :=
  if k ∈ acc then acc else acc ++ [k]

/-- Outer-join id list (server.js:857): `new Set([...pMap.keys(),
...qMap.keys()])`, i.e. both key lists deduplicated keeping first
occurrences in insertion order. -/
def joinIdsOuter (pMap qMap : KeyedMap) : List String :=
  (jsKeys pMap ++ jsKeys qMap).foldl addUnique []

/-- `JoinResult`: `{ count, data }` as produced by the join endpoints. -/
structure JoinResult where
  count : Nat
  data : List Record
deriving DecidableEq, Repr

/-- Inner-join result (`getJoinedFull` loop, server.js:656-670). -/
def innerJoinResult (pMap qMap : KeyedMap) (sihP sihQ : Option Cell) : JoinResult :=
  let merged := (joinIdsInner pMap qMap).map (joinRowFor pMap qMap sihP sihQ)
  { count := merged.length, data := merged }

/-- Outer-join result (`/api/schools` fallback loop, server.js:857-872). -/
def outerJoinResult (pMap qMap : KeyedMap) (sihP sihQ : Option Cell) : JoinResult :=
  let merged := (joinIdsOuter pMap qMap).map (joinRowFor pMap qMap sihP sihQ)
  { count := merged.length, data := merged }

/-- A fetched dataset `{ headers, rows, data }`. -/
structure Dataset where
  headers : List Cell
  rows : List (List Cell)
  data : List Record
deriving DecidableEq, Repr

/-- Profile dataset construction inside `refreshAll` (server.js:681-684):
`header = values[0] || []`, `dataRows = values.length > 1 ?
values.slice(1) : []`. -/
def profileDatasetOfValues (values : List (List Cell)) : Dataset :=
  let header := values.getD 0 []
  let dataRows := if values.length > 1 then values.drop 1 else []
  { headers := header, rows := dataRows, data := rowsToObjects dataRows header }

/-- Performance dataset construction inside `refreshAll`
(server.js:687-693): take the first three header rows (missing ones as
`[]`), flatten them, and materialize the data rows. -/
def perfDatasetOfValues (headerRows perfRows : List (List Cell)) : Dataset :=
  let h1 := headerRows.getD 0 []
  let h2 := headerRows.getD 1 []
  let h3 := headerRows.getD 2 []
  let flat := (buildPerfFlatHeaders h1 h2 h3).map Cell.str
  { headers := flat, rows := perfRows, data := rowsToObjects perfRows flat }

/-- The joined (inner) view computed from the two datasets
(server.js:696-712, identical to the `getJoinedFull` body). -/
def joinedMatchedOf (profile performance : Dataset) : JoinResult :=
  let pMap := toKeyedBySchoolId profile.data profile.headers
  let qMap := toKeyedBySchoolId performance.data performance.headers
  let sihP := profile.headers.find? isSchoolIdHeader
  let sihQ := performance.headers.find? isSchoolIdHeader
  innerJoinResult pMap qMap sihP sihQ

/-- The in-memory `SNAPSHOT` object (server.js:458-464). -/
structure Snapshot where
  profile : Option Dataset
  performance : Option Dataset
  joinedMatched : Option JoinResult
  lastUpdated : Option String
  lastReason : Option String
deriving DecidableEq, Repr

/-- The outcomes of the upstream calls performed by `refreshAll`, in the
order the code awaits them: `getSheetsClient`, then `getSheetValues` for
the profile range, the performance header range, and the performance data
range.  Each may throw. -/
structure Upstream where
  client : Except String Unit
  profileValues : Except String (List (List Cell))
  perfHeaderValues : Except String (List (List Cell))
  perfDataValues : Except String (List (List Cell))

/-- `refreshAll` from server.js:676-740, as a transformer of the
`SNAPSHOT` state.  The source mutates `SNAPSHOT` only in the commit block
at lines 714-719, after every upstream await has succeeded, with no
fallible operation in between; each earlier `await` that throws leaves
`SNAPSHOT` untouched and propagates the error.  (The `stats` counters and
the post-commit disk save, which never throws, are not `SNAPSHOT` fields
and are modelled separately.) -/
def refreshAll (u : Upstream) (now reason : String) (s : Snapshot) :
    Snapshot × Except String Unit :=
  match u.client with
  | .error e => (s, .error e)
  | .ok _ =>
    match u.profileValues with
    | .error e => (s, .error e)
    | .ok values =>
      match u.perfHeaderValues with
      | .error e => (s, .error e)
      | .ok headerRows =>
        match u.perfDataValues with
        | .error e => (s, .error e)
        | .ok perfRows =>
          let profile := profileDatasetOfValues values
          let performance := perfDatasetOfValues headerRows perfRows
          let joined := joinedMatchedOf profile performance
          ({ profile := some profile
             performance := some performance
             joinedMatched := some joined
             lastUpdated := some now
             lastReason := some reason }, .ok ())

/-- The `stats` counters object (server.js / part_001 lines 32-39). -/
structure Stats where
  totalRequests : Nat
  cacheHits : Nat
  cacheMisses : Nat
  apiCalls : Nat
  errors : Nat
  lastApiCall : Option String
deriving DecidableEq, Repr

/-- State of the TTL-cache variant relevant to `getProfile`: the
`NodeCache` entry under key `"profile_full"` (present while unexpired
within the TTL window) and the counters. -/
structure TTLState where
  cacheProfile : Option Dataset
  stats : Stats
deriving DecidableEq, Repr

/-- `getProfile` from src/unnamed/part_001 lines 135-153 (TTL-cache
variant): bump `totalRequests`; on cache hit bump `cacheHits` and return
the cached dataset; on miss bump `cacheMisses`, call `getSheetsClient`
(may throw) and `getSheetValues` (bumps `apiCalls` and `lastApiCall`
before possibly throwing); if the fetched value list is empty return an
empty dataset WITHOUT caching; otherwise build, cache and return the
dataset. -/
def getProfileTTL (client : Except String Unit)
    (fetched : Except String (List (List Cell))) (now : String)
    (st : TTLState) : Except String Dataset × TTLState :=
  let st := { st with stats := { st.stats with totalRequests := st.stats.totalRequests + 1 } }
  match st.cacheProfile with
  | some cached =>
      (.ok cached, { st with stats := { st.stats with cacheHits := st.stats.cacheHits + 1 } })
  | none =>
    let st := { st with stats := { st.stats with cacheMisses := st.stats.cacheMisses + 1 } }
    match client with
    | .error e => (.error e, st)
    | .ok _ =>
      let st := { st with stats :=
        { st.stats with apiCalls := st.stats.apiCalls + 1, lastApiCall := some now } }
      match fetched with
      | .error e => (.error e, st)
      | .ok values =>
        if values.length = 0 then
          (.ok { headers := [], rows := [], data := [] }, st)
        else
          let header := values.getD 0 []
          let dataRows := values.drop 1
          let result : Dataset := { headers := header, rows := dataRows
                                    data := rowsToObjects dataRows header }
          (.ok result, { st with cacheProfile := some result })

/-- The stats subset written into the snapshot document
(`snapshotToSerializable`, server.js:528-534). -/
structure SavedStats where
  apiCalls : Nat
  totalRequests : Nat
  cacheHits : Nat
  cacheMisses : Nat
  lastApiCall : Option String
deriving DecidableEq, Repr

/-- The serialized snapshot document (server.js:521-536).  JSON
stringify/parse of this plain data is modelled as the identity. -/
structure SavedDoc where
  profile : Option Dataset
  performance : Option Dataset
  joinedMatched : Option JoinResult
  lastUpdated : Option String
  lastReason : Option String
  stats : SavedStats
deriving DecidableEq, Repr

/-- `snapshotToSerializable` from server.js:521-536. -/
def snapshotToSerializable (s : Snapshot) (st : Stats) : SavedDoc :=
  { profile := s.profile
    performance := s.performance
    joinedMatched := s.joinedMatched
    lastUpdated := s.lastUpdated
    lastReason := s.lastReason
    stats := { apiCalls := st.apiCalls, totalRequests := st.totalRequests
               cacheHits := st.cacheHits, cacheMisses := st.cacheMisses
               lastApiCall := st.lastApiCall } }

/-- `saveSnapshotToDisk` from server.js:537-546: the durable file
contents after a successful write-temp-then-rename. -/
def saveSnapshotToDisk (s : Snapshot) (st : Stats) : Option SavedDoc :=
  some (snapshotToSerializable s st)

/-- JS `x || null` applied to a parsed string-or-null field: the empty
string is falsy and collapses to `null`. -/
def jsStrOrNull : Option String → Option String
  | some s => if s = "" then none else some s
  | none => none

/-- `loadSnapshotFromDisk` from server.js:547-562: if the file is absent
return `ok:false` leaving the state unchanged; otherwise parse and assign
each snapshot field as `j.<field> || null` (identity for the object
fields, which are never falsy, and `jsStrOrNull` for the string fields)
and `Object.assign(stats, j.stats)`. -/
def loadSnapshotFromDisk (disk : Option SavedDoc) (s : Snapshot) (st : Stats) :
    Snapshot × Stats × Bool :=
  match disk with
  | none => (s, st, false)
  | some j =>
    ({ profile := j.profile
       performance := j.performance
       joinedMatched := j.joinedMatched
       lastUpdated := jsStrOrNull j.lastUpdated
       lastReason := jsStrOrNull j.lastReason },
     { st with apiCalls := j.stats.apiCalls, totalRequests := j.stats.totalRequests
               cacheHits := j.stats.cacheHits, cacheMisses := j.stats.cacheMisses
               lastApiCall := j.stats.lastApiCall },
     true)

/-- The `onlyMatched` flag of `GET /api/schools` (server.js:847):
`(req.query.onlyMatched ?? "true").toString().toLowerCase() !== "false"`. -/
def onlyMatchedFlag (q : Option String) : Bool :=
  !(jsToLower (q.getD "true") == "false")

/-- The route selects the outer join exactly when `onlyMatched` is false
(server.js:848-852). -/
def schoolsUsesOuterJoin (q : Option String) : Bool :=
  !(onlyMatchedFlag q)

/-! ## Example data used by the concrete test cases -/

/-- Profile headers of the worked example: key column plus one data
column. -/
def profileHeadersEx : List Cell := [Cell.str "School ID", Cell.str "PName"]

/-- Performance headers of the worked example. -/
def perfHeadersEx : List Cell := [Cell.str "School ID", Cell.str "QName"]

/-- Profile keyed index of the worked example: keys 1, 2, 3. -/
def pmEx : KeyedMap :=
  toKeyedBySchoolId
    (rowsToObjects [[Cell.str "1", Cell.str "a1"], [Cell.str "2", Cell.str "a2"],
      [Cell.str "3", Cell.str "a3"]] profileHeadersEx) profileHeadersEx

/-- Performance keyed index of the worked example: keys 2, 3, 4. -/
def qmEx : KeyedMap :=
  toKeyedBySchoolId
    (rowsToObjects [[Cell.str "2", Cell.str "b2"], [Cell.str "3", Cell.str "b3"],
      [Cell.str "4", Cell.str "b4"]] perfHeadersEx) perfHeadersEx

/-- Detected key header on the profile side of the worked example. -/
def sihPEx : Option Cell := profileHeadersEx.find? isSchoolIdHeader

/-- Detected key header on the performance side of the worked example. -/
def sihQEx : Option Cell := perfHeadersEx.find? isSchoolIdHeader

/-- All-zero counters. -/
def stats0 : Stats :=
  { totalRequests := 0, cacheHits := 0, cacheMisses := 0, apiCalls := 0
    errors := 0, lastApiCall := none }

/-- The empty snapshot the process starts with. -/
def emptySnapshot : Snapshot :=
  { profile := none, performance := none, joinedMatched := none
    lastUpdated := none, lastReason := none }

/-- Fresh TTL-cache server state: empty cache, zero counters. -/
def st0 : TTLState := { cacheProfile := none, stats := stats0 }

/-! ## Lemmas about the JS object / `Map` model -/

theorem jsHas_iff (m : List (String × α)) (k : String) :
    jsHas m k = true ↔ k ∈ jsKeys m := by
  induction m with
  | nil => simp [jsHas, jsKeys]
  | cons e t ih =>
    by_cases h : e.1 = k
    · simp [jsHas, jsKeys, h]
    · simp only [jsHas, h, if_false, ih, jsKeys, List.map_cons, List.mem_cons]
      constructor
      · exact Or.inr
      · rintro (hk | hk)
        · exact absurd hk.symm h
        · exact hk

theorem jsGet_eq_none_iff (m : List (String × α)) (k : String) :
    jsGet m k = none ↔ k ∉ jsKeys m := by
  induction m with
  | nil => simp [jsGet, jsKeys]
  | cons e t ih =>
    by_cases h : e.1 = k
    · simp [jsGet, jsKeys, h]
    · simp only [jsGet, h, if_false, ih, jsKeys, List.map_cons, List.mem_cons]
      constructor
      · rintro hk (rfl | hmem)
        · exact h rfl
        · exact hk hmem
      · intro hk hmem
        exact hk (Or.inr hmem)

theorem jsGet_mem_keys {m : List (String × α)} {k : String} {v : α}
    (h : jsGet m k = some v) : k ∈ jsKeys m := by
  by_contra hk
  rw [← jsGet_eq_none_iff] at hk
  simp [hk] at h

theorem jsGet_isSome_iff (m : List (String × α)) (k : String) :
    (jsGet m k).isSome = true ↔ k ∈ jsKeys m := by
  cases hg : jsGet m k with
  | none => simp [(jsGet_eq_none_iff m k).mp hg]
  | some v => simp [jsGet_mem_keys hg]

theorem jsGet_append (m m' : List (String × α)) (k : String) :
    jsGet (m ++ m') k =
      match jsGet m k with
      | some v => some v
      | none => jsGet m' k := by
  induction m with
  | nil => simp [jsGet]
  | cons e t ih =>
    by_cases h : e.1 = k
    · simp [jsGet, h]
    · simp [jsGet, h, ih]

theorem jsGet_mapReplace (m : List (String × α)) (k k' : String) (v : α) :
    jsGet (m.map (fun e => if e.1 = k then (k, v) else e)) k' =
      if k' = k then (if jsHas m k then some v else none) else jsGet m k' := by
  induction m with
  | nil => by_cases h : k' = k <;> simp [jsGet, jsHas, h]
  | cons e t ih =>
    by_cases he : e.1 = k
    · by_cases hk' : k' = k
      · subst hk'
        simp [jsGet, jsHas, he]
      · have hkk' : ¬(k = k') := fun hh => hk' hh.symm
        simp [jsGet, jsHas, he, hk', hkk', ih]
    · by_cases hek' : e.1 = k'
      · have hk' : ¬(k' = k) := fun hh => he (hek'.trans hh)
        simp [jsGet, he, hek', hk']
      · simp [jsGet, jsHas, he, hek', ih]

theorem jsGet_jsSet (m : List (String × α)) (k k' : String) (v : α) :
    jsGet (jsSet m k v) k' = if k' = k then some v else jsGet m k' := by
  unfold jsSet
  by_cases h : jsHas m k
  · simp only [h, if_true]
    rw [jsGet_mapReplace]
    simp [h]
  · have hb : jsHas m k = false := by simp [h]
    simp only [hb, Bool.false_eq_true, if_false]
    rw [jsGet_append]
    by_cases hk' : k' = k
    · subst hk'
      have : jsGet m k' = none := by
        rw [jsGet_eq_none_iff]
        intro hmem
        exact h ((jsHas_iff m k').mpr hmem)
      simp [this, jsGet]
    · have hkk' : ¬(k = k') := fun hh => hk' hh.symm
      cases hg : jsGet m k' <;> simp [hk', hg, jsGet, hkk']

theorem jsKeys_jsSet (m : List (String × α)) (k : String) (v : α) :
    jsKeys (jsSet m k v) = if jsHas m k then jsKeys m else jsKeys m ++ [k] := by
  unfold jsSet
  by_cases h : jsHas m k
  · simp only [h, if_true]
    simp only [jsKeys, List.map_map]
    apply List.map_congr_left
    intro e _
    by_cases he : e.1 = k
    · simp [he, Function.comp]
    · simp [he, Function.comp]
  · simp [h, jsKeys]

/-! ## Lemmas about the keyed-index fold -/

theorem getLast?_cons_eq (a : α) (l : List α) :
    (a :: l).getLast? = some (l.getLast?.getD a) := by
  induction l generalizing a with
  | nil => rfl
  | cons b t ih =>
    rw [List.getLast?_cons_cons, ih b]
    simp

theorem keyed_foldl_get (keyName k : String) (objs : List Record) (m : KeyedMap) :
    jsGet (objs.foldl (keyedStep keyName) m) k =
      match (objs.filter (insertsKey keyName k)).getLast? with
      | some r => some r
      | none => jsGet m k := by
  induction objs generalizing m with
  | nil => simp
  | cons r tl ih =>
    rw [List.foldl_cons, ih]
    by_cases hin : insertsKey keyName k r = true
    · have hfil : (r :: tl).filter (insertsKey keyName k) =
          r :: tl.filter (insertsKey keyName k) := by
        simp [List.filter, hin]
      rw [hfil, getLast?_cons_eq]
      unfold insertsKey at hin
      unfold keyedStep
      cases hg : jsGet r keyName with
      | none => rw [hg] at hin; simp at hin
      | some v =>
        rw [hg] at hin
        by_cases hv : v = Cell.str ""
        · simp [hv] at hin
        · simp only [hv, if_false, decide_eq_true_eq] at hin
          subst hin
          simp only [hv, if_false]
          cases hl : (tl.filter (insertsKey keyName v.toJSString)).getLast? with
          | none => simp [jsGet_jsSet]
          | some r' => simp
    · have hfil : (r :: tl).filter (insertsKey keyName k) =
          tl.filter (insertsKey keyName k) := by
        simp only [List.filter]
        rw [Bool.not_eq_true] at hin
        rw [hin]
      rw [hfil]
      have hstep : jsGet (keyedStep keyName m r) k = jsGet m k := by
        unfold keyedStep
        unfold insertsKey at hin
        cases hg : jsGet r keyName with
        | none => rfl
        | some v =>
          rw [hg] at hin
          by_cases hv : v = Cell.str ""
          · simp [hv]
          · simp only [hv, if_false, decide_eq_true_eq] at hin
            simp only [hv, if_false]
            rw [jsGet_jsSet]
            have : ¬(k = v.toJSString) := fun hh => hin hh.symm
            simp [this]
      rw [hstep]

/-! ## Lemmas about the merge and School-ID fill -/

theorem mergeRow_nil (p : Record) : mergeRow p [] = p := rfl

theorem jsGet_mergeRow (p q : Record) (hq : (jsKeys q).Nodup) (k : String) :
    jsGet (mergeRow p q) k =
      match jsGet q k with
      | some v => some v
      | none => jsGet p k := by
  induction q generalizing p with
  | nil => simp [mergeRow, jsGet]
  | cons e t ih =>
    have hq' : (jsKeys t).Nodup := by
      simpa [jsKeys] using hq.of_cons
    have hnotmem : e.1 ∉ jsKeys t := by
      have := hq
      simp only [jsKeys, List.map_cons, List.nodup_cons] at this
      simpa [jsKeys] using this.1
    have hstep : mergeRow p (e :: t) = mergeRow (jsSet p e.1 e.2) t := rfl
    rw [hstep, ih _ hq']
    by_cases hk : k = e.1
    · subst hk
      have hqt : jsGet t e.1 = none := (jsGet_eq_none_iff t e.1).mpr hnotmem
      simp [hqt, jsGet, jsGet_jsSet]
    · have hke : ¬(e.1 = k) := fun hh => hk hh.symm
      cases hg : jsGet t k with
      | none => simp [jsGet, hke, hg, jsGet_jsSet, hk]
      | some v => simp [jsGet, hke, hg]

theorem ensureSchoolId_of_truthy (sihP sihQ : Option Cell) (p q row : Record)
    (id : String) (h : schoolIdTruthy row = true) :
    ensureSchoolId sihP sihQ p q row id = row := by
  simp [ensureSchoolId, h]

theorem ensureSchoolId_get_of_fill_left (sihP sihQ : Option Cell) (p q row : Record)
    (id : String) (v : Cell) (h : schoolIdTruthy row = false)
    (hp : lookupVia sihP p = some v) :
    jsGet (ensureSchoolId sihP sihQ p q row id) "School ID" = some v := by
  simp [ensureSchoolId, h, hp, jsGet_jsSet]

theorem ensureSchoolId_get_of_fill_right (sihP sihQ : Option Cell) (p q row : Record)
    (id : String) (v : Cell) (h : schoolIdTruthy row = false)
    (hp : lookupVia sihP p = none) (hq : lookupVia sihQ q = some v) :
    jsGet (ensureSchoolId sihP sihQ p q row id) "School ID" = some v := by
  simp [ensureSchoolId, h, hp, hq, jsGet_jsSet]

theorem ensureSchoolId_get_of_fill_key (sihP sihQ : Option Cell) (p q row : Record)
    (id : String) (h : schoolIdTruthy row = false)
    (hp : lookupVia sihP p = none) (hq : lookupVia sihQ q = none) :
    jsGet (ensureSchoolId sihP sihQ p q row id) "School ID" = some (Cell.str id) := by
  simp [ensureSchoolId, h, hp, hq, jsGet_jsSet]

theorem ensureSchoolId_isSome (sihP sihQ : Option Cell) (p q row : Record)
    (id : String) :
    (jsGet (ensureSchoolId sihP sihQ p q row id) "School ID").isSome = true := by
  unfold ensureSchoolId
  by_cases h : schoolIdTruthy row = true
  · simp only [h, if_true]
    unfold schoolIdTruthy at h
    cases hg : jsGet row "School ID" with
    | none => rw [hg] at h; simp at h
    | some v => simp [hg]
  · simp only [h, if_false]
    cases lookupVia sihP p with
    | some v => simp [jsGet_jsSet]
    | none =>
      cases lookupVia sihQ q with
      | some v => simp [jsGet_jsSet]
      | none => simp [jsGet_jsSet]

theorem ensureSchoolId_get_other (sihP sihQ : Option Cell) (p q row : Record)
    (id : String) (f : String) (hf : f ≠ "School ID") :
    jsGet (ensureSchoolId sihP sihQ p q row id) f = jsGet row f := by
  unfold ensureSchoolId
  by_cases h : schoolIdTruthy row = true
  · simp [h]
  · simp only [h, if_false]
    cases lookupVia sihP p with
    | some v => simp [jsGet_jsSet, hf]
    | none =>
      cases lookupVia sihQ q with
      | some v => simp [jsGet_jsSet, hf]
      | none => simp [jsGet_jsSet, hf]

/-! ## Lemmas about the outer-join id set -/

theorem mem_addUnique (acc : List String) (a k : String) :
    k ∈ addUnique acc a ↔ k ∈ acc ∨ k = a := by
  unfold addUnique
  by_cases ha : a ∈ acc
  · simp only [ha, if_true]
    constructor
    · exact Or.inl
    · rintro (hk | hk)
      · exact hk
      · subst hk; exact ha
  · simp [ha]

theorem mem_foldl_addUnique (l : List String) (acc : List String) (k : String) :
    k ∈ l.foldl addUnique acc ↔ k ∈ acc ∨ k ∈ l := by
  induction l generalizing acc with
  | nil => simp
  | cons a t ih =>
    rw [List.foldl_cons, ih, mem_addUnique, List.mem_cons]
    tauto

/-! ## Lemmas about substring containment and the key locator -/

theorem matchesAt_iff (pat l : List Char) :
    matchesAt pat l = true ↔ ∃ post, l = pat ++ post := by
  induction pat generalizing l with
  | nil => simp [matchesAt]
  | cons p ps ih =>
    cases l with
    | nil => simp [matchesAt]
    | cons c cs =>
      simp only [matchesAt, List.cons_append, List.cons.injEq]
      by_cases h : p = c
      · subst h
        simp [ih]
      · have h' : ¬(c = p) := fun hh => h hh.symm
        simp [h, h']

theorem listFindSub_iff (pat l : List Char) :
    listFindSub pat l = true ↔ ∃ pre post, l = pre ++ pat ++ post := by
  induction l with
  | nil =>
    simp only [listFindSub, List.isEmpty_iff]
    constructor
    · rintro rfl
      exact ⟨[], [], rfl⟩
    · rintro ⟨pre, post, hp⟩
      have h1 := List.append_eq_nil.mp hp.symm
      exact (List.append_eq_nil.mp h1.1).2
  | cons c cs ih =>
    simp only [listFindSub, Bool.or_eq_true, matchesAt_iff, ih]
    constructor
    · rintro (⟨post, hp⟩ | ⟨pre, post, hp⟩)
      · exact ⟨[], post, by simpa using hp⟩
      · exact ⟨c :: pre, post, by simp [hp]⟩
    · rintro ⟨pre, post, hp⟩
      cases pre with
      | nil => exact Or.inl ⟨post, by simpa using hp⟩
      | cons x xs =>
        rw [List.cons_append, List.cons_append] at hp
        exact Or.inr ⟨xs, post, (List.cons.inj hp).2⟩

theorem strContains_iff (s pat : String) :
    strContains s pat = true ↔ ∃ pre post, s.toList = pre ++ pat.toList ++ post :=
  listFindSub_iff pat.toList s.toList

theorem findSchoolIdAux_lower_bound (l : List Cell) :
    ∀ m : Nat, findSchoolIdAux l m = -1 ∨
      ∃ j : Nat, findSchoolIdAux l m = (j : Int) ∧ m ≤ j := by
  induction l with
  | nil => intro m; exact Or.inl rfl
  | cons x xs ih =>
    intro m
    by_cases hx : isSchoolIdHeader x = true
    · exact Or.inr ⟨m, by simp [findSchoolIdAux, hx], le_refl m⟩
    · rcases ih (m + 1) with hh | ⟨j, hj, hmj⟩
      · exact Or.inl (by simp [findSchoolIdAux, hx, hh])
      · exact Or.inr ⟨j, by simp [findSchoolIdAux, hx, hj], by omega⟩

theorem findSchoolIdAux_spec_found (l : List Cell) :
    ∀ (n i : Nat), findSchoolIdAux l n = ((n + i : Nat) : Int) →
      i < l.length ∧ isSchoolIdHeader (l.getD i (Cell.str "")) = true ∧
        ∀ j, j < i → isSchoolIdHeader (l.getD j (Cell.str "")) = false := by
  induction l with
  | nil =>
    intro n i h
    simp [findSchoolIdAux] at h
    omega
  | cons c t ih =>
    intro n i h
    by_cases hc : isSchoolIdHeader c = true
    · simp only [findSchoolIdAux, if_pos hc] at h
      have hni : (n : Int) = ((n + i : Nat) : Int) := h
      have hi : i = 0 := by omega
      subst hi
      exact ⟨by simp, by simpa using hc, fun j hj => absurd hj (by omega)⟩
    · simp only [findSchoolIdAux, if_neg hc] at h
      cases i with
      | zero =>
        exfalso
        rcases findSchoolIdAux_lower_bound t (n + 1) with hh | ⟨j, hj, hmj⟩
        · rw [hh] at h; omega
        · rw [hj] at h
          have : j = n + 0 := by exact_mod_cast h
          omega
      | succ i' =>
        have h' : findSchoolIdAux t (n + 1) = (((n + 1) + i' : Nat) : Int) := by
          rw [h]; congr 1; omega
        rcases ih (n + 1) i' h' with ⟨h1, h2, h3⟩
        refine ⟨by simpa using Nat.succ_lt_succ h1, by simpa using h2, ?_⟩
        intro j hj
        cases j with
        | zero =>
          have hcf : isSchoolIdHeader c = false := by simpa using hc
          simpa using hcf
        | succ j' => simpa using h3 j' (by omega)

theorem findSchoolIdAux_eq_neg_one_iff (l : List Cell) :
    ∀ n : Nat, findSchoolIdAux l n = -1 ↔ ∀ h ∈ l, isSchoolIdHeader h = false := by
  induction l with
  | nil => intro n; simp [findSchoolIdAux]
  | cons c t ih =>
    intro n
    by_cases hc : isSchoolIdHeader c = true
    · simp only [findSchoolIdAux, if_pos hc]
      constructor
      · intro hh; exact absurd hh (by simp)
      · intro hall
        have := hall c (List.mem_cons_self c t)
        rw [hc] at this
        exact absurd this (by simp)
    · simp only [findSchoolIdAux, if_neg hc, ih (n + 1)]
      constructor
      · intro hall h hm
        rcases List.mem_cons.mp hm with rfl | hm
        · simpa using hc
        · exact hall h hm
      · intro hall h hm
        exact hall h (List.mem_cons_of_mem c hm)

/-! ## Claim theorems -/

/-- C7: the key column locator returns the lowest index whose label —
trimmed and lower-cased — equals "school id", equals "schoolid", or
contains both substrings "school" and "id" (independent substring tests),
scanning left to right; it returns -1 when no label matches; on
`["Name","School ID","Region"]` it returns 1, on `["schoolid","name"]` it
returns 0, and on `["id","name"]` it returns -1. -/
theorem claim_C7_findSchoolIdIndex :
    (∀ headers : List Cell,
      (∀ i : Nat, findSchoolIdIndex headers = (i : Int) →
        i < headers.length ∧ isSchoolIdHeader (headers.getD i (Cell.str "")) = true ∧
          ∀ j, j < i → isSchoolIdHeader (headers.getD j (Cell.str "")) = false)
      ∧ (findSchoolIdIndex headers = -1 ↔
          ∀ h ∈ headers, isSchoolIdHeader h = false))
    ∧ (∀ s : String, isSchoolIdHeader (Cell.str s) = true ↔
        (jsToLower (jsTrim s) = "school id" ∨ jsToLower (jsTrim s) = "schoolid" ∨
          ((∃ pre post, (jsToLower (jsTrim s)).toList =
              pre ++ "school".toList ++ post) ∧
           (∃ pre post, (jsToLower (jsTrim s)).toList =
              pre ++ "id".toList ++ post))))
    ∧ findSchoolIdIndex [Cell.str "Name", Cell.str "School ID", Cell.str "Region"] = 1
    ∧ findSchoolIdIndex [Cell.str "schoolid", Cell.str "name"] = 0
    ∧ findSchoolIdIndex [Cell.str "id", Cell.str "name"] = -1 := by
  refine ⟨fun headers => ⟨fun i h => ?_, findSchoolIdAux_eq_neg_one_iff headers 0⟩,
    fun s => ?_, by decide, by decide, by decide⟩
  · apply findSchoolIdAux_spec_found headers 0 i
    simpa using h
  · have harg : (if (Cell.str s).truthy then (Cell.str s).toJSString else "") = s := by
      by_cases hs : s = ""
      · simp [Cell.truthy, hs]
      · simp [Cell.truthy, Cell.toJSString, hs]
    rw [isSchoolIdHeader]
    simp only [harg, Bool.or_eq_true, Bool.and_eq_true, beq_iff_eq, strContains_iff]
    tauto

/-- C7 witness: the locator applied to `["Name","School ID","Region"]`
finds index 1, which is in range, matches the predicate, and no earlier
index matches. -/
theorem claim_C7_findSchoolIdIndex_witness :
    1 < ([Cell.str "Name", Cell.str "School ID", Cell.str "Region"]).length ∧
    isSchoolIdHeader (([Cell.str "Name", Cell.str "School ID",
      Cell.str "Region"]).getD 1 (Cell.str "")) = true ∧
    ∀ j, j < 1 → isSchoolIdHeader (([Cell.str "Name", Cell.str "School ID",
      Cell.str "Region"]).getD j (Cell.str "")) = false :=
  (claim_C7_findSchoolIdIndex.1
    [Cell.str "Name", Cell.str "School ID", Cell.str "Region"]).1 1 (by decide)

/-- C10: `/api/schools` selects the outer join iff the `onlyMatched`
query value, lower-cased, equals exactly `"false"`; an absent parameter,
`"0"`, `"no"`, or a misspelling selects the inner join, while any casing
of `"false"` selects the outer join. -/
theorem claim_C10_onlyMatched :
    (∀ s : String, schoolsUsesOuterJoin (some s) = (jsToLower s == "false"))
    ∧ schoolsUsesOuterJoin none = false
    ∧ schoolsUsesOuterJoin (some "0") = false
    ∧ schoolsUsesOuterJoin (some "no") = false
    ∧ schoolsUsesOuterJoin (some "FALSE") = true
    ∧ schoolsUsesOuterJoin (some "flase") = false := by
  refine ⟨fun s => ?_, by decide, by decide, by decide, by decide, by decide⟩
  simp [schoolsUsesOuterJoin, onlyMatchedFlag]

/-- C6: building the keyed index returns the empty index when no header
matches the key predicate; otherwise the lookup at any key `k` is the
LAST record among those whose value at the key field is defined, not
`""`, and stringifies exactly to `k` (membership in the index holds iff
some record inserts `k`; no trimming, so `"7"` and `"7 "` are distinct
keys, and a duplicate key is silently overwritten by the later
record). -/
theorem claim_C6_toKeyedBySchoolId :
    (∀ (objs : List Record) (headerRow : List Cell),
      (findSchoolIdIndex headerRow < 0 → toKeyedBySchoolId objs headerRow = [])
      ∧ (¬(findSchoolIdIndex headerRow < 0) →
          ∀ k, jsGet (toKeyedBySchoolId objs headerRow) k =
            (objs.filter (insertsKey
              ((headerRow.getD (findSchoolIdIndex headerRow).toNat
                (Cell.str "")).toJSString) k)).getLast?)
      ∧ (¬(findSchoolIdIndex headerRow < 0) →
          ∀ k, k ∈ jsKeys (toKeyedBySchoolId objs headerRow) ↔
            ∃ r ∈ objs, insertsKey
              ((headerRow.getD (findSchoolIdIndex headerRow).toNat
                (Cell.str "")).toJSString) k r = true))
    ∧ jsKeys (toKeyedBySchoolId
        (rowsToObjects [[Cell.str "7"], [Cell.str "7 "]] [Cell.str "School ID"])
        [Cell.str "School ID"]) = ["7", "7 "]
    ∧ jsGet (toKeyedBySchoolId
        (rowsToObjects [[Cell.str "7", Cell.str "first"],
          [Cell.str "7", Cell.str "second"]] profileHeadersEx)
        profileHeadersEx) "7" =
        some [("School ID", Cell.str "7"), ("PName", Cell.str "second")] := by
  have hlaw : ∀ (objs : List Record) (headerRow : List Cell),
      ¬(findSchoolIdIndex headerRow < 0) →
      ∀ k, jsGet (toKeyedBySchoolId objs headerRow) k =
        (objs.filter (insertsKey
          ((headerRow.getD (findSchoolIdIndex headerRow).toNat
            (Cell.str "")).toJSString) k)).getLast? := by
    intro objs headerRow h k
    rw [toKeyedBySchoolId]
    simp only [h, if_false]
    rw [keyed_foldl_get]
    cases (objs.filter (insertsKey
        ((headerRow.getD (findSchoolIdIndex headerRow).toNat
          (Cell.str "")).toJSString) k)).getLast? with
    | none => simp [jsGet]
    | some r => simp
  refine ⟨fun objs headerRow => ⟨fun h => ?_, hlaw objs headerRow, fun h k => ?_⟩,
    by decide, by decide⟩
  · simp [toKeyedBySchoolId, h]
  · rw [← jsGet_isSome_iff, hlaw objs headerRow h k]
    cases hfil : objs.filter (insertsKey
        ((headerRow.getD (findSchoolIdIndex headerRow).toNat
          (Cell.str "")).toJSString) k) with
    | nil =>
      simp only [List.getLast?_nil, Option.isSome_none, Bool.false_eq_true, false_iff]
      rintro ⟨r, hr, hins⟩
      have hmem : r ∈ objs.filter (insertsKey
          ((headerRow.getD (findSchoolIdIndex headerRow).toNat
            (Cell.str "")).toJSString) k) := List.mem_filter.mpr ⟨hr, hins⟩
      rw [hfil] at hmem
      exact absurd hmem (List.not_mem_nil r)
    | cons r' tl =>
      rw [getLast?_cons_eq]
      simp only [Option.isSome_some, true_iff]
      have hr' : r' ∈ objs.filter (insertsKey
          ((headerRow.getD (findSchoolIdIndex headerRow).toNat
            (Cell.str "")).toJSString) k) := by
        rw [hfil]; exact List.mem_cons_self r' tl
      rcases List.mem_filter.mp hr' with ⟨hmem, hins⟩
      exact ⟨r', hmem, hins⟩

/-- C6 witness: on a header list with no key column the built index is
empty. -/
theorem claim_C6_toKeyedBySchoolId_witness :
    toKeyedBySchoolId [] [Cell.str "Name"] = [] :=
  (claim_C6_toKeyedBySchoolId.1 [] [Cell.str "Name"]).1 (by decide)


/-- C2: the inner join's key list is exactly the left index's key list
filtered to membership in the right index (so its key set is the
intersection of the two key sets, in left insertion order, and a sublist
of the left key list), and the returned count equals the number of
produced records; on left keys {1,2,3} and right keys {2,3,4} the result
has keys ["2","3"] and count 2. -/
theorem claim_C2_innerJoin :
    (∀ (pMap qMap : KeyedMap) (sihP sihQ : Option Cell),
      (∀ k, k ∈ joinIdsInner pMap qMap ↔ k ∈ jsKeys pMap ∧ k ∈ jsKeys qMap)
      ∧ joinIdsInner pMap qMap = (jsKeys pMap).filter (fun k => jsHas qMap k)
      ∧ (joinIdsInner pMap qMap).Sublist (jsKeys pMap)
      ∧ (innerJoinResult pMap qMap sihP sihQ).count =
          (innerJoinResult pMap qMap sihP sihQ).data.length
      ∧ (innerJoinResult pMap qMap sihP sihQ).data.length =
          (joinIdsInner pMap qMap).length)
    ∧ joinIdsInner pmEx qmEx = ["2", "3"]
    ∧ (innerJoinResult pmEx qmEx sihPEx sihQEx).count = 2 := by
  refine ⟨fun pMap qMap sihP sihQ => ⟨fun k => ?_, rfl, ?_, rfl, ?_⟩,
    by decide, by decide⟩
  · simp only [joinIdsInner, List.mem_filter, jsHas_iff]
  · exact List.filter_sublist (jsKeys pMap)
  · simp [innerJoinResult]

/-- C3: the merged record is the shallow merge `{...p, ...q}` in which
the right side wins on any field-name collision; a falsy/missing
`"School ID"` in the merged row is filled from the left record's value at
the left detected key field, else the right record's value at the right
detected key field, else the join key string itself, in that order; in
the field-collision example the merged `Name` is `"B"` (right wins). -/
theorem claim_C3_mergeAndFill :
    (∀ (p q : Record), (jsKeys q).Nodup →
      ∀ k, jsGet (mergeRow p q) k =
        match jsGet q k with
        | some v => some v
        | none => jsGet p k)
    ∧ (∀ (sihP sihQ : Option Cell) (p q row : Record) (id : String),
        (schoolIdTruthy row = true → ensureSchoolId sihP sihQ p q row id = row)
        ∧ (schoolIdTruthy row = false → ∀ v, lookupVia sihP p = some v →
            jsGet (ensureSchoolId sihP sihQ p q row id) "School ID" = some v)
        ∧ (schoolIdTruthy row = false → lookupVia sihP p = none →
            ∀ v, lookupVia sihQ q = some v →
            jsGet (ensureSchoolId sihP sihQ p q row id) "School ID" = some v)
        ∧ (schoolIdTruthy row = false → lookupVia sihP p = none →
            lookupVia sihQ q = none →
            jsGet (ensureSchoolId sihP sihQ p q row id) "School ID" =
              some (Cell.str id)))
    ∧ jsGet (mergeRow [("School ID", Cell.str "1"), ("Name", Cell.str "A")]
        [("School ID", Cell.str "1"), ("Name", Cell.str "B")]) "Name" =
        some (Cell.str "B") := by
  refine ⟨fun p q hq k => jsGet_mergeRow p q hq k,
    fun sihP sihQ p q row id => ⟨?_, ?_, ?_, ?_⟩, by decide⟩
  · exact ensureSchoolId_of_truthy sihP sihQ p q row id
  · intro h v hp
    exact ensureSchoolId_get_of_fill_left sihP sihQ p q row id v h hp
  · intro h hp v hqv
    exact ensureSchoolId_get_of_fill_right sihP sihQ p q row id v h hp hqv
  · intro h hp hqv
    exact ensureSchoolId_get_of_fill_key sihP sihQ p q row id h hp hqv

/-- C3 witness: a merged row that already carries a truthy `"School ID"`
is returned unchanged by the fill step. -/
theorem claim_C3_mergeAndFill_witness :
    ensureSchoolId none none [] [] [("School ID", Cell.str "1")] "9" =
      [("School ID", Cell.str "1")] :=
  (claim_C3_mergeAndFill.2.1 none none [] []
    [("School ID", Cell.str "1")] "9").1 (by decide)

/-- C4: the outer join's key list contains exactly the union of the two
key sets; a key missing on the left is joined against the empty record
`{}` (and symmetrically a key missing on the right contributes no
right-side fields); every produced record carries a `"School ID"` field;
count equals the number of produced records; on the worked example the
count is 4, key "1" has only Profile fields, key "4" only Performance
fields, and both carry `"School ID"`. -/
theorem claim_C4_outerJoin :
    (∀ (pMap qMap : KeyedMap) (sihP sihQ : Option Cell),
      (∀ k, k ∈ joinIdsOuter pMap qMap ↔ k ∈ jsKeys pMap ∨ k ∈ jsKeys qMap)
      ∧ (∀ k, jsHas pMap k = false →
            joinRowFor pMap qMap sihP sihQ k =
              ensureSchoolId sihP sihQ [] ((jsGet qMap k).getD [])
                (mergeRow [] ((jsGet qMap k).getD [])) k)
      ∧ (∀ k f, jsHas qMap k = false → f ≠ "School ID" →
            jsGet (joinRowFor pMap qMap sihP sihQ k) f =
              jsGet ((jsGet pMap k).getD []) f)
      ∧ (∀ row ∈ (outerJoinResult pMap qMap sihP sihQ).data,
            (jsGet row "School ID").isSome = true)
      ∧ (outerJoinResult pMap qMap sihP sihQ).count =
          (outerJoinResult pMap qMap sihP sihQ).data.length)
    ∧ joinIdsOuter pmEx qmEx = ["1", "2", "3", "4"]
    ∧ (outerJoinResult pmEx qmEx sihPEx sihQEx).count = 4
    ∧ jsGet (joinRowFor pmEx qmEx sihPEx sihQEx "1") "QName" = none
    ∧ jsGet (joinRowFor pmEx qmEx sihPEx sihQEx "1") "PName" = some (Cell.str "a1")
    ∧ (jsGet (joinRowFor pmEx qmEx sihPEx sihQEx "1") "School ID").isSome = true
    ∧ jsGet (joinRowFor pmEx qmEx sihPEx sihQEx "4") "PName" = none
    ∧ jsGet (joinRowFor pmEx qmEx sihPEx sihQEx "4") "QName" = some (Cell.str "b4")
    ∧ (jsGet (joinRowFor pmEx qmEx sihPEx sihQEx "4") "School ID").isSome = true := by
  refine ⟨fun pMap qMap sihP sihQ => ⟨fun k => ?_, fun k hk => ?_, fun k f hk hf => ?_,
      fun row hrow => ?_, rfl⟩,
    by decide, by decide, by decide, by decide, by decide, by decide, by decide,
    by decide⟩
  · simp only [joinIdsOuter, mem_foldl_addUnique, List.not_mem_nil, false_or,
      List.mem_append]
  · have hnone : jsGet pMap k = none := by
      rw [jsGet_eq_none_iff]
      intro hmem
      rw [← jsHas_iff] at hmem
      rw [hk] at hmem
      exact Bool.false_ne_true hmem
    rw [joinRowFor, hnone]
    rfl
  · have hnone : jsGet qMap k = none := by
      rw [jsGet_eq_none_iff]
      intro hmem
      rw [← jsHas_iff] at hmem
      rw [hk] at hmem
      exact Bool.false_ne_true hmem
    rw [joinRowFor, hnone]
    rw [ensureSchoolId_get_other _ _ _ _ _ _ f hf]
    rfl
  · simp only [outerJoinResult, List.mem_map] at hrow
    rcases hrow with ⟨id, -, rfl⟩
    exact ensureSchoolId_isSome sihP sihQ _ _ _ id

/-- C4 witness: on the worked example the right-only key "4" is joined
against the empty left record. -/
theorem claim_C4_outerJoin_witness :
    joinRowFor pmEx qmEx sihPEx sihQEx "4" =
      ensureSchoolId sihPEx sihQEx [] ((jsGet qmEx "4").getD [])
        (mergeRow [] ((jsGet qmEx "4").getD [])) "4" :=
  ((claim_C4_outerJoin.1 pmEx qmEx sihPEx sihQEx).2.1 "4" (by decide))


/-- C5 counterexample: a column whose three header cells are all empty
does NOT yield the placeholder `col_0` — the joined label `" |  | "`
still contains the two separators after trimming, so the code produces
`"|  |"` and the `col_<index>` fallback never fires in three-row mode. -/
theorem claim_C5_counterexample :
    buildPerfFlatHeaders [Cell.str ""] [] [] = ["|  |"] ∧
    buildPerfFlatHeaders [Cell.str ""] [] [] ≠ ["col_0"] := by
  constructor
  · decide
  · decide

/-- C5 amended: the flat header has length equal to the maximum row
width; at each position the label is the three corresponding cells joined
as `"<cat> | <field> | <year>"` and trimmed (missing cells as empty
string), with the `col_<index>` placeholder only when that trimmed label
is empty — which never happens in three-row mode because the separators
survive trimming, so an all-empty position yields `"|  |"`, not
`col_<index>`. -/
theorem claim_C5_amended :
    (∀ h1 h2 h3 : List Cell,
      (buildPerfFlatHeaders h1 h2 h3).length = max (max h1.length h2.length) h3.length
      ∧ ∀ i, i < max (max h1.length h2.length) h3.length →
          (buildPerfFlatHeaders h1 h2 h3).getD i "" =
            (let label := jsTrim ((h1.getD i (Cell.str "")).toJSString ++ " | " ++
                (h2.getD i (Cell.str "")).toJSString ++ " | " ++
                (h3.getD i (Cell.str "")).toJSString)
             if label.length = 0 then "col_" ++ natToString i else label))
    ∧ buildPerfFlatHeaders [Cell.str "A", Cell.str "B"] [Cell.str "x", Cell.str "y"]
        [Cell.num 2021, Cell.num 2022] = ["A | x | 2021", "B | y | 2022"]
    ∧ buildPerfFlatHeaders [Cell.str ""] [] [] = ["|  |"] := by
  refine ⟨fun h1 h2 h3 => ⟨?_, fun i hi => ?_⟩, by decide, by decide⟩
  · simp [buildPerfFlatHeaders]
  · rw [buildPerfFlatHeaders]
    rw [List.getD_eq_getElem?_getD, List.getElem?_map, List.getElem?_range hi]
    simp

/-- C5 amended witness: the positional label law evaluated at the worked
example's first column. -/
theorem claim_C5_amended_witness :
    (buildPerfFlatHeaders [Cell.str "A", Cell.str "B"] [Cell.str "x", Cell.str "y"]
        [Cell.num 2021, Cell.num 2022]).getD 0 "" =
      (let label := jsTrim ((([Cell.str "A", Cell.str "B"] :
            List Cell).getD 0 (Cell.str "")).toJSString ++ " | " ++
          (([Cell.str "x", Cell.str "y"] :
            List Cell).getD 0 (Cell.str "")).toJSString ++ " | " ++
          (([Cell.num 2021, Cell.num 2022] :
            List Cell).getD 0 (Cell.str "")).toJSString)
       if label.length = 0 then "col_" ++ natToString 0 else label) :=
  ((claim_C5_amended.1 [Cell.str "A", Cell.str "B"] [Cell.str "x", Cell.str "y"]
    [Cell.num 2021, Cell.num 2022]).2 0 (by decide))

/-- C1: `refreshAll` is all-or-nothing on the in-memory snapshot — if any
upstream call fails, the error propagates and the snapshot is exactly the
old one; if all succeed, every snapshot field (profile, performance,
joinedMatched, lastUpdated, lastReason) is replaced together with the
values computed from the fetched data. -/
theorem claim_C1_refreshAll_atomic :
    ∀ (u : Upstream) (now reason : String) (s : Snapshot),
      ((refreshAll u now reason s).2 = .ok () →
        ∃ pv hv dv, u.profileValues = .ok pv ∧ u.perfHeaderValues = .ok hv ∧
          u.perfDataValues = .ok dv ∧
          (refreshAll u now reason s).1 =
            { profile := some (profileDatasetOfValues pv)
              performance := some (perfDatasetOfValues hv dv)
              joinedMatched := some (joinedMatchedOf (profileDatasetOfValues pv)
                (perfDatasetOfValues hv dv))
              lastUpdated := some now
              lastReason := some reason })
      ∧ (∀ e, (refreshAll u now reason s).2 = .error e →
          (refreshAll u now reason s).1 = s) := by
  intro u now reason s
  rcases u with ⟨c, pvs, hvs, dvs⟩
  cases c with
  | error e => exact ⟨fun h => absurd h (by simp [refreshAll]), fun e' _ => rfl⟩
  | ok u =>
    cases pvs with
    | error e => exact ⟨fun h => absurd h (by simp [refreshAll]), fun e' _ => rfl⟩
    | ok pv =>
      cases hvs with
      | error e => exact ⟨fun h => absurd h (by simp [refreshAll]), fun e' _ => rfl⟩
      | ok hv =>
        cases dvs with
        | error e => exact ⟨fun h => absurd h (by simp [refreshAll]), fun e' _ => rfl⟩
        | ok dv =>
          refine ⟨fun _ => ⟨pv, hv, dv, rfl, rfl, rfl, rfl⟩, fun e' he' => ?_⟩
          exact absurd he' (by simp [refreshAll])

/-- C1 witness: a refresh whose very first upstream call fails leaves the
snapshot untouched. -/
theorem claim_C1_refreshAll_atomic_witness :
    (refreshAll ⟨.error "boom", .ok [], .ok [], .ok []⟩ "t" "manual"
      emptySnapshot).1 = emptySnapshot :=
  (claim_C1_refreshAll_atomic ⟨.error "boom", .ok [], .ok [], .ok []⟩ "t" "manual"
    emptySnapshot).2 "boom" rfl


/-- C8 counterexample: when the upstream returns an EMPTY value list,
`getProfile` (TTL variant) takes the early `!values.length` return and
does NOT store the result, so a second read within the TTL window misses
again — after two reads from an initially empty cache the miss counter
is 2 and the hit counter is 0, and nothing was cached, contradicting the
claim that every miss stores its result and the second read hits. -/
theorem claim_C8_counterexample :
    (getProfileTTL (.ok ()) (.ok []) "t1" st0).2.cacheProfile = none ∧
    (getProfileTTL (.ok ()) (.ok []) "t2"
      (getProfileTTL (.ok ()) (.ok []) "t1" st0).2).2.stats.cacheMisses = 2 ∧
    (getProfileTTL (.ok ()) (.ok []) "t2"
      (getProfileTTL (.ok ()) (.ok []) "t1" st0).2).2.stats.cacheHits = 0 := by
  refine ⟨rfl, rfl, rfl⟩

/-- C8 amended: when the upstream returns a NON-empty value list, a miss
recomputes the dataset, stores it in the cache and bumps the miss
counter; a second read of the same key within the TTL window (regardless
of the upstream oracle, which is not consulted) returns the identical
dataset and bumps the hit counter, leaving the miss counter unchanged.
When the upstream returns an empty value list the result is returned
without being cached and a later read misses again. -/
theorem claim_C8_cacheIdempotent :
    ∀ (vs : List (List Cell)) (now1 now2 : String) (st : TTLState)
      (client2 : Except String Unit) (fetched2 : Except String (List (List Cell))),
      st.cacheProfile = none → vs ≠ [] →
      ∃ d : Dataset,
        (getProfileTTL (.ok ()) (.ok vs) now1 st).1 = .ok d ∧
        (getProfileTTL (.ok ()) (.ok vs) now1 st).2.cacheProfile = some d ∧
        (getProfileTTL (.ok ()) (.ok vs) now1 st).2.stats.cacheMisses =
          st.stats.cacheMisses + 1 ∧
        (getProfileTTL (.ok ()) (.ok vs) now1 st).2.stats.cacheHits =
          st.stats.cacheHits ∧
        (getProfileTTL client2 fetched2 now2
          (getProfileTTL (.ok ()) (.ok vs) now1 st).2).1 = .ok d ∧
        (getProfileTTL client2 fetched2 now2
          (getProfileTTL (.ok ()) (.ok vs) now1 st).2).2.stats.cacheHits =
          (getProfileTTL (.ok ()) (.ok vs) now1 st).2.stats.cacheHits + 1 ∧
        (getProfileTTL client2 fetched2 now2
          (getProfileTTL (.ok ()) (.ok vs) now1 st).2).2.stats.cacheMisses =
          (getProfileTTL (.ok ()) (.ok vs) now1 st).2.stats.cacheMisses ∧
        (getProfileTTL client2 fetched2 now2
          (getProfileTTL (.ok ()) (.ok vs) now1 st).2).2.cacheProfile = some d := by
  intro vs now1 now2 st client2 fetched2 hcache hvs
  cases vs with
  | nil => exact absurd rfl hvs
  | cons r tl =>
    refine ⟨{ headers := r, rows := tl, data := rowsToObjects tl r },
      ?_, ?_, ?_, ?_, ?_, ?_, ?_, ?_⟩ <;>
      simp [getProfileTTL, hcache]

/-- C8 witness: from a fresh state and a one-row upstream, the second
read is a hit: the total hit count after two reads is 1. -/
theorem claim_C8_cacheIdempotent_witness :
    ((getProfileTTL (.ok ()) (.ok ([] : List (List Cell))) "t2"
      (getProfileTTL (.ok ()) (.ok [[Cell.str "School ID"]]) "t1"
        st0).2).2).stats.cacheHits = 1 := by
  obtain ⟨d, h1, h2, h3, h4, h5, h6, h7, h8⟩ :=
    claim_C8_cacheIdempotent [[Cell.str "School ID"]] "t1" "t2" st0
      (.ok ()) (.ok []) rfl (by decide)
  rw [h6, h4]
  rfl

/-- C9 counterexample: a snapshot whose `lastReason` is the empty string
does not survive the save/load round trip — `loadSnapshotFromDisk`
assigns `j.lastReason || null`, which collapses the falsy `""` to null,
so the recovered snapshot differs from the saved one. -/
theorem claim_C9_counterexample :
    (loadSnapshotFromDisk
        (saveSnapshotToDisk { emptySnapshot with lastReason := some "" } stats0)
        emptySnapshot stats0).1 ≠
      { emptySnapshot with lastReason := some "" } ∧
    (loadSnapshotFromDisk
        (saveSnapshotToDisk { emptySnapshot with lastReason := some "" } stats0)
        emptySnapshot stats0).1.lastReason = none := by
  refine ⟨?_, rfl⟩
  decide

/-- C9 amended: for every snapshot whose `lastUpdated` and `lastReason`
are not the empty string (in particular every snapshot the server itself
writes, whose timestamps and reasons are non-empty), saving to disk and
loading back recovers a snapshot whose five fields deep-equal the saved
ones. -/
theorem claim_C9_roundTrip :
    ∀ (s s0 : Snapshot) (st st0 : Stats),
      s.lastUpdated ≠ some "" → s.lastReason ≠ some "" →
      (loadSnapshotFromDisk (saveSnapshotToDisk s st) s0 st0).1 = s := by
  intro s s0 st st0 hu hr
  rcases s with ⟨p, q, j, lu, lr⟩
  simp only [saveSnapshotToDisk, snapshotToSerializable, loadSnapshotFromDisk]
  have h1 : jsStrOrNull lu = lu := by
    cases lu with
    | none => rfl
    | some x =>
      have hx : ¬(x = "") := by
        intro hh
        exact hu (by simp [hh])
      simp [jsStrOrNull, hx]
  have h2 : jsStrOrNull lr = lr := by
    cases lr with
    | none => rfl
    | some x =>
      have hx : ¬(x = "") := by
        intro hh
        exact hr (by simp [hh])
      simp [jsStrOrNull, hx]
  rw [h1, h2]

/-- C9 witness: a populated snapshot with a non-empty reason round-trips
exactly. -/
theorem claim_C9_roundTrip_witness :
    (loadSnapshotFromDisk
        (saveSnapshotToDisk
          { emptySnapshot with lastUpdated := some "2024-01-01T00:00:00Z"
                               lastReason := some "manual" } stats0)
        emptySnapshot stats0).1 =
      { emptySnapshot with lastUpdated := some "2024-01-01T00:00:00Z"
                           lastReason := some "manual" } :=
  claim_C9_roundTrip
    { emptySnapshot with lastUpdated := some "2024-01-01T00:00:00Z"
                         lastReason := some "manual" }
    emptySnapshot stats0 stats0 (by decide) (by decide)

end SheetsServer
